import Mathlib

/-!
Verification of the admin-permission cache and anonymous-admin verification
subsystem of the PtbMod repository (src/ptbmod/decorator/admins.py and
src/ptbmod/decorator/cache.py), as a shallow embedding in Lean 4.

Conventions of the embedding:
* machine integers are `Int`/`Nat` (Telegram chat ids are signed, message and
  user ids here appear as plain integers; no overflow is possible in Python);
* the module-level mutable containers (`admin_cache`, `context.bot_data`) are
  passed and returned explicitly as state;
* the external bot API (`bot.get_chat_administrators`,
  `get_member_with_cache`) is an oracle parameter, and every function that
  could reach the transport also returns the number of external calls it
  performed, so that "no external call" is a provable statement;
* a Python call either returns a value or raises: fallible entry points return
  a `PyResult`.
-/

namespace PtbMod

/-- The sixteen permission-flag names appearing in
`PERMISSION_ERROR_MESSAGES` (admins.py lines 84-101); the permission lists
passed to the `Admins` decorator draw from these. -/
inductive Perm
  | can_delete_messages
  | can_change_info
  | can_promote_members
  | can_pin_messages
  | can_invite_users
  | can_restrict_members
  | can_manage_chat
  | can_post_messages
  | can_edit_messages
  | can_manage_video_chats
  | can_send_messages
  | can_send_media_messages
  | can_send_other_messages
  | can_send_polls
  | can_add_web_page_previews
  | can_manage_topics
deriving DecidableEq, Repr

/-- The shape of a `telegram.ChatMember` object as the code observes it: its
status (the concrete subclass) and, for the subclasses that carry `can_*`
attributes (`ChatMemberAdministrator`, `ChatMemberRestricted`), the set of
flags that are present and truthy.  `ChatMemberOwner`, `ChatMemberMember`,
`ChatMemberLeft` and `ChatMemberBanned` carry no `can_*` attributes, so
`getattr(record, flag, False)` is `False` on them for every flag. -/
inductive MemberKind
  | owner
  | administrator (flags : List Perm)
  | member
  | restricted (flags : List Perm)
  | left
  | banned
deriving DecidableEq, Repr

/-- `getattr(member, permission, False)` truthiness (admins.py lines 62 and
198): an attribute read with default `False` on a membership record. -/
def getattrPerm : MemberKind → Perm → Bool
  | .administrator fs, p => fs.contains p
  | .restricted fs, p => fs.contains p
  | _, _ => false

/-- The `permissions` argument of the `Admins` decorator
(admins.py line 104): `Optional[Union[str, List[str]]]`. -/
inductive PermInput
  | nonePerm
  | single (p : Perm)
  | listPerm (ps : List Perm)
deriving DecidableEq, Repr

/-- The list the code iterates over:
`permissions_list if isinstance(permissions_list, list) else [permissions_list]`
(admins.py lines 61 and 197), and nothing at all when `permissions is None`. -/
def permsToList : PermInput → List Perm
  | .nonePerm => []
  | .single p => [p]
  | .listPerm ps => ps

/-- `check_permissions` (admins.py lines 55-63 and 194-199): appends to the
shared `missing_permissions` list every requested flag whose attribute on the
record is absent or falsy.  Modelled as the list of missing flags, in the
iteration order of the request; the caller appends it to the accumulator. -/
def check_permissions (m : MemberKind) (pi : PermInput) : List Perm :=
  match pi with
  | .nonePerm => []
  | pi => (permsToList pi).filter (fun p => ¬ getattrPerm m p)

/-- Number of decimal digits of `m`, i.e. the length of Python `str(m)` for a
nonnegative integer (1 for 0).  Structural on an explicit fuel so that the
kernel can evaluate it. -/
def numDigitsAux : Nat → Nat → Nat
  | 0, _ => 0
  | fuel + 1, m => if m < 10 then 1 else numDigitsAux fuel (m / 10) + 1

/-- `numDigits m` = number of digits in the decimal representation of `m`. -/
def numDigits (m : Nat) : Nat := numDigitsAux (m + 1) m

/-- Decimal concatenation of two nonnegative integers:
`int(str(a) + str(m))`. -/
def combineNat (a m : Nat) : Nat := a * 10 ^ numDigits m + m

/-- The challenge token `int(f"{chat_id}{message_id}")` computed at
admins.py line 161 (issue) and line 30 (resolution).  For a negative chat id
the formatted string is `-` followed by the digits of `|chat_id|` and then the
digits of `message_id`. -/
def combineToken (c : Int) (m : Nat) : Int :=
  if 0 ≤ c then ((combineNat c.toNat m : Nat) : Int)
  else -((combineNat c.natAbs m : Nat) : Int)

/-- A `telegram.ChatMember` as stored in the admin list: the wrapped user's
id (`member.user.id`) and the record's kind/privileges. -/
structure ChatMemberRec where
  userId : Int
  kind : MemberKind
deriving DecidableEq, Repr

/-- `isinstance(x, ChatMemberOwner)` (cache.py line 59). -/
def instanceOwner (r : ChatMemberRec) : Bool :=
  match r.kind with
  | .owner => true
  | _ => false

/-- `isinstance(x, ChatMemberAdministrator) or isinstance(x, ChatMemberOwner)`
(cache.py line 69). -/
def instanceAdminOrOwner (r : ChatMemberRec) : Bool :=
  match r.kind with
  | .administrator _ => true
  | .owner => true
  | _ => false

/-- The `AdminCache` value class (cache.py lines 9-16). -/
structure AdminCache where
  chat_id : Int
  user_info : List ChatMemberRec
  cached : Bool
deriving DecidableEq, Repr

/-- One stored element of the `cachetools.TTLCache`: key, value and the
absolute expiry instant (`store time + ttl`). -/
structure TTLEntry where
  key : Int
  val : AdminCache
  expires : Nat
deriving DecidableEq, Repr

/-- The state of `cachetools.TTLCache` (cache.py line 6), modelled after the
library's documented behaviour: a bounded mapping whose entries each expire
`ttl` seconds after insertion (an entry is visible while `now < expires`),
with least-recently-used eviction among unexpired entries when full.  The
entry list is kept in LRU order, least recently used first. -/
structure TTLModel where
  maxsize : Nat
  ttl : Nat
  entries : List TTLEntry
deriving DecidableEq, Repr

/-- `admin_cache = TTLCache(maxsize=1000, ttl=15 * 60)` (cache.py line 6). -/
def admin_cache : TTLModel := { maxsize := 1000, ttl := 15 * 60, entries := [] }

/-- Underlying dict lookup: the entry stored for `key`, if any. -/
def ttlFind (c : TTLModel) (key : Int) : Option TTLEntry :=
  c.entries.find? (fun e => e.key == key)

/-- Move the entry for `key` to the most-recently-used end. -/
def ttlTouch (c : TTLModel) (key : Int) : TTLModel :=
  { c with entries :=
      c.entries.filter (fun e => ¬ e.key == key)
        ++ c.entries.filter (fun e => e.key == key) }

/-- `key in cache` on a TTLCache: present and unexpired (no LRU reordering). -/
def ttlContains (c : TTLModel) (now : Nat) (key : Int) : Bool :=
  match ttlFind c key with
  | some e => now < e.expires
  | none => false

/-- `cache[key]` / `cache.get(key)` on a TTLCache at instant `now`: the value
when present and unexpired (touching the LRU order), otherwise a miss. -/
def ttlGet (c : TTLModel) (now : Nat) (key : Int) : Option AdminCache × TTLModel :=
  match ttlFind c key with
  | some e => if now < e.expires then (some e.val, ttlTouch c key) else (none, c)
  | none => (none, c)

/-- `cache[key] = v` on a TTLCache at instant `now`: first sweep out expired
entries; then, if the key is absent and the cache is full, evict
least-recently-used entries until there is room; finally store the value at
the most-recently-used end with expiry `now + ttl`. -/
def ttlSetItem (c : TTLModel) (now : Nat) (key : Int) (v : AdminCache) : TTLModel :=
  let swept := c.entries.filter (fun e => now < e.expires)
  let newEntry : TTLEntry := { key := key, val := v, expires := now + c.ttl }
  if swept.any (fun e => e.key == key) then
    { c with entries := swept.filter (fun e => ¬ e.key == key) ++ [newEntry] }
  else
    { c with entries := swept.drop (swept.length + 1 - c.maxsize) ++ [newEntry] }

/-- How an external Python call can fail. -/
inductive PyErr
  | badRequest
  | forbidden
  | transportError
  | keyError
deriving DecidableEq, Repr

/-- A Python call either returns a value or raises an exception. -/
inductive PyResult (α : Type)
  | returns (a : α)
  | raises (e : PyErr)
deriving DecidableEq, Repr

/-- Outcome of the one external transport call
`bot.get_chat_administrators(chat_id)` (cache.py line 30), supplied as an
oracle: either the admin list, or an exception of some kind. -/
inductive FetchOutcome
  | ok (admins : List ChatMemberRec)
  | exc (k : PyErr)
deriving DecidableEq, Repr

/-- `load_admin_cache` (cache.py lines 19-36).  Returns the Python result, the
new cache state, and the number of external transport calls performed.  The
`try`/`except Exception` swallows every fetch failure and returns
`(False, AdminCache(chat_id, [], cached=False))` without caching anything. -/
def load_admin_cache (c : TTLModel) (now : Nat) (fetch : FetchOutcome)
    (chat_id : Int) (force_reload : Bool) :
    PyResult (Bool × AdminCache) × TTLModel × Nat :=
  if force_reload = false then
    match ttlGet c now chat_id with
    | (some v, c1) => (.returns (true, v), c1, 0)
    | (none, _) =>
      match fetch with
      | .ok l =>
        let v : AdminCache := { chat_id := chat_id, user_info := l, cached := true }
        (.returns (true, v), ttlSetItem c now chat_id v, 1)
      | .exc _ =>
        (.returns (false, { chat_id := chat_id, user_info := [], cached := false }), c, 1)
  else
    match fetch with
    | .ok l =>
      let v : AdminCache := { chat_id := chat_id, user_info := l, cached := true }
      (.returns (true, v), ttlSetItem c now chat_id v, 1)
    | .exc _ =>
      (.returns (false, { chat_id := chat_id, user_info := [], cached := false }), c, 1)

/-- `get_admin_cache_user` (cache.py lines 39-51): consults only
`admin_cache.get(chat_id)` and scans the cached admin list.  The function has
no transport access at all; the trailing `Nat` is its external-call count. -/
def get_admin_cache_user (c : TTLModel) (now : Nat) (chat_id user_id : Int) :
    (Bool × Option ChatMemberRec) × TTLModel × Nat :=
  match ttlGet c now chat_id with
  | (none, c1) => ((false, none), c1, 0)
  | (some al, c1) =>
    match al.user_info.find? (fun ui => ui.userId == user_id) with
    | some ui => ((true, some ui), c1, 0)
    | none => ((false, none), c1, 0)

/-- `is_owner` (cache.py lines 54-61). -/
def is_owner (c : TTLModel) (now : Nat) (chat_id user_id : Int) :
    Bool × TTLModel × Nat :=
  match get_admin_cache_user c now chat_id user_id with
  | ((is_cached, user_info), c1, n) =>
    match user_info with
    | some ui => (is_cached && instanceOwner ui, c1, n)
    | none => (false, c1, n)

/-- `is_admin` (cache.py lines 64-71). -/
def is_admin (c : TTLModel) (now : Nat) (chat_id user_id : Int) :
    Bool × TTLModel × Nat :=
  match get_admin_cache_user c now chat_id user_id with
  | ((is_cached, user_info), c1, n) =>
    match user_info with
    | some ui => (is_cached && instanceAdminOrOwner ui, c1, n)
    | none => (false, c1, n)

/-- `telegram.constants.ChatID.ANONYMOUS_ADMIN`: the fixed sender id the
platform substitutes for an anonymous group admin (admins.py line 160). -/
def anonymousAdminId : Int := 1087968824

/-- Chat types as used by the guard (`ChatType.PRIVATE` at admins.py
line 144). -/
inductive ChatKind
  | private_chat
  | group
  | supergroup
  | channel
deriving DecidableEq, Repr

/-- Modelled from the spec (section 4.2 PermissionEvaluator): the record-based
`is_admin` predicate that admins.py imports and applies to a single
membership record (`is_admin(bot)`, lines 46, 184, ...).  The revision of
cache.py under src/ only defines an id-based variant, so the record-based one
is absent from src/; per the spec `isAdmin(record)` is true iff the status is
Administrator or Owner, consistent with the isinstance checks of cache.py. -/
def isAdminRec : MemberKind → Bool
  | .administrator _ => true
  | .owner => true
  | _ => false

/-- Modelled from the spec (section 4.2 PermissionEvaluator): the record-based
`is_owner` predicate used at admins.py lines 178, 210, 227: true iff the
record's status is Owner.  Also equivalent to the
`member.status != ChatMemberStatus.OWNER` test at admins.py line 69. -/
def isOwnerRec : MemberKind → Bool
  | .owner => true
  | _ => false

/-- A pending anonymous-admin challenge as stored in `context.bot_data`
(admins.py line 161): the tuple `(message, func, permissions)`.  The message
is kept as its truthiness (a real `Message` object is always truthy) together
with its id, and the wrapped action `func` as an opaque identifier. -/
structure Pending where
  msgTruthy : Bool
  msgId : Nat
  actionId : Nat
  perms : PermInput
deriving DecidableEq, Repr

/-- `context.bot_data`: a plain Python dict from challenge token to pending
tuple. -/
abbrev BotData := List (Int × Pending)

/-- Python dict assignment `d[k] = v`: overwrite in place when the key is
present, append otherwise. -/
def dictInsert (d : BotData) (k : Int) (v : Pending) : BotData :=
  if d.any (fun kv => kv.1 == k) then
    d.map (fun kv => if kv.1 == k then (k, v) else kv)
  else
    d ++ [(k, v)]

/-- Python `d.pop(k)` with no default: removes and returns the entry for `k`,
or raises `KeyError` (signalled by `none`) when the key is absent. -/
def dictPop (d : BotData) (k : Int) : Option (Pending × BotData) :=
  match d.find? (fun kv => kv.1 == k) with
  | some kv => some (kv.2, d.filter (fun e => ¬ e.1 == k))
  | none => none

/-- The challenge-store write `context.bot_data[token] = (message, func,
permissions)` (admins.py line 161), as executed at wall-clock instant `now`.
The dict records nothing about the clock: `now` is unused by the code. -/
def storeChallengeAt (_now : Nat) (d : BotData) (token : Int) (e : Pending) : BotData :=
  dictInsert d token e

/-- The challenge-store read `context.bot_data.pop(callback_id)` (admins.py
line 31), as executed at wall-clock instant `now`.  The lookup never consults
the clock: `now` is unused by the code. -/
def resolveChallengeAt (_now : Nat) (d : BotData) (token : Int) :
    Option (Pending × BotData) :=
  dictPop d token

/-- Every way `verify_anonymous_admin` can terminate. -/
inductive VerifyOutcome
  | keyError
  | answeredFailedGetMessage
  | answeredFailedGetMember
  | answeredBotNotAdmin
  | answeredUserNotAdmin
  | answeredMissingPerms (ps : List Perm)
  | ranAction (actionId : Nat)
deriving DecidableEq, Repr

/-- `verify_anonymous_admin` (admins.py lines 19-80).  Inputs: the shared
`bot_data` dict, the callback's chat id and the message id parsed from
`callback.data.split('.')[1]`, the `get_member_with_cache` results for the
clicking user and for the bot (an oracle `Int → Option MemberKind` applied to
their ids), and those ids.  Output: what happened, and the new `bot_data`.
Line 31 pops the token with no default, so a missing token raises KeyError
before the `if not message` guard can run. -/
def verify_anonymous_admin (d : BotData) (chatId : Int) (cbMsgId : Nat)
    (fetchMember : Int → Option MemberKind) (userId botId : Int) :
    VerifyOutcome × BotData :=
  let callback_id := combineToken chatId cbMsgId
  match dictPop d callback_id with
  | none => (.keyError, d)
  | some (entry, rest) =>
    if entry.msgTruthy = false then (.answeredFailedGetMessage, rest)
    else
      match fetchMember userId, fetchMember botId with
      | some memberK, some botK =>
        if isAdminRec botK = false then (.answeredBotNotAdmin, rest)
        else if isAdminRec memberK = false then (.answeredUserNotAdmin, rest)
        else
          let missing := check_permissions memberK entry.perms
          if missing ≠ [] ∧ isOwnerRec memberK = false then
            (.answeredMissingPerms missing, rest)
          else (.ranAction entry.actionId, rest)
      | _, _ => (.answeredFailedGetMember, rest)

/-- The keyword arguments of the `Admins` decorator factory (admins.py
lines 103-111). -/
structure Policy where
  permissions : PermInput
  is_bot : Bool
  is_user : Bool
  is_both : Bool
  only_owner : Bool
  only_dev : Bool
  no_reply : Bool
  allow_pm : Bool
deriving DecidableEq, Repr

/-- Every way the wrapped guard can terminate. -/
inductive GuardOutcome
  | ranFunc
  | sentPMNotAllowed
  | silentNone
  | sentDevOnly
  | challengeIssued (token : Int) (buttonMsgId : Nat)
  | sentCouldNotRetrieve
  | sentOwnerOnly
  | sentBotNotAdmin
  | sentUserNotAdmin
  | sentBothNotAdmin
  | sentBotMissingPerms (ps : List Perm)
  | sentUserMissingPerms (ps : List Perm)
deriving DecidableEq, Repr

/-- The permission-checking tail of `wrapped` (admins.py lines 192-230): the
`is_bot` block (201-205), the `is_user` block (207-211) and the `is_both`
block (213-228) share one `missing_permissions` accumulator, cleared only at
line 224. -/
def wrappedPermTail (botK userK : MemberKind) (pol : Policy) : GuardOutcome :=
  let mBot := if pol.is_bot then check_permissions botK pol.permissions else []
  if pol.is_bot ∧ mBot ≠ [] then .sentBotMissingPerms mBot
  else
    let mUser := mBot ++ (if pol.is_user then check_permissions userK pol.permissions else [])
    if pol.is_user ∧ mUser ≠ [] ∧ isOwnerRec userK = false then
      .sentUserMissingPerms mUser
    else if pol.is_both then
      if isAdminRec botK = false then .sentBotNotAdmin
      else if isAdminRec userK = false then .sentUserNotAdmin
      else
        let mBot2 := mUser ++ check_permissions botK pol.permissions
        if mBot2 ≠ [] then .sentBotMissingPerms mBot2
        else
          let mUser2 := check_permissions userK pol.permissions
          if mUser2 ≠ [] ∧ isOwnerRec userK = false then .sentUserMissingPerms mUser2
          else .ranFunc
    else .ranFunc

/-- One incoming update as the guard observes it: the chat, the ids involved,
the configured developer allowlist, and the `get_member_with_cache` oracle. -/
structure GuardInput where
  chatType : ChatKind
  chatId : Int
  messageId : Nat
  userId : Int
  msgSenderId : Int
  botId : Int
  devs : List Int
  fetchMember : Int → Option MemberKind

/-- The `wrapped` coroutine produced by the `Admins` decorator (admins.py
lines 132-230).  `actionId` identifies the wrapped `func`.  Returns the
outcome, the new `bot_data`, and the list of user ids for which a membership
lookup (`get_member_with_cache`, lines 170-171) was performed. -/
def wrapped (pol : Policy) (inp : GuardInput) (actionId : Nat) (d : BotData) :
    GuardOutcome × BotData × List Int :=
  if inp.chatType = .private_chat ∧ pol.only_dev = false then
    if pol.allow_pm then (.ranFunc, d, [])
    else if pol.no_reply then (.silentNone, d, [])
    else (.sentPMNotAllowed, d, [])
  else if pol.only_dev ∧ inp.userId ∉ inp.devs then
    if pol.no_reply then (.silentNone, d, []) else (.sentDevOnly, d, [])
  else if inp.msgSenderId = anonymousAdminId ∧ pol.no_reply = false then
    let token := combineToken inp.chatId inp.messageId
    (.challengeIssued token inp.messageId,
     dictInsert d token
       { msgTruthy := true, msgId := inp.messageId, actionId := actionId,
         perms := pol.permissions },
     [])
  else
    let lookups := [inp.botId, inp.userId]
    match inp.fetchMember inp.botId, inp.fetchMember inp.userId with
    | some botK, some userK =>
      if pol.only_owner ∧ isOwnerRec userK = false then
        if pol.no_reply then (.silentNone, d, lookups)
        else (.sentOwnerOnly, d, lookups)
      else if pol.is_bot ∧ isAdminRec botK = false then (.sentBotNotAdmin, d, lookups)
      else if pol.is_user ∧ isAdminRec userK = false then (.sentUserNotAdmin, d, lookups)
      else if pol.is_both ∧ isAdminRec botK = false ∧ isAdminRec userK = false then
        (.sentBothNotAdmin, d, lookups)
      else (wrappedPermTail botK userK pol, d, lookups)
    | _, _ => (.sentCouldNotRetrieve, d, lookups)

/-- Successive `admin_cache[chat_id] = AdminCache(...)` stores (cache.py
line 31), one per chat id, all at instant 0: the population pattern of the
member cache. -/
def insertKeys (c : TTLModel) : List Int → TTLModel
  | [] => c
  | k :: ks =>
    insertKeys (ttlSetItem c 0 k { chat_id := k, user_info := [], cached := true }) ks

/-- 513 distinct chat ids. -/
def keys513 : List Int := (List.range 513).map Int.ofNat

end PtbMod

namespace PtbMod

/-! ### Helper lemmas -/

theorem numDigitsAux_lt : ∀ (fuel m : Nat), m < fuel → m < 10 ^ numDigitsAux fuel m := by
  intro fuel
  induction fuel with
  | zero => intro m h; omega
  | succ f ih =>
    intro m h
    unfold numDigitsAux
    by_cases h10 : m < 10
    · simp only [h10, if_true, pow_one]
    · simp only [h10, if_false]
      have hm : m / 10 < f := by omega
      have hrec := ih (m / 10) hm
      have hstep : m < (m / 10 + 1) * 10 := by omega
      calc m < (m / 10 + 1) * 10 := hstep
        _ ≤ 10 ^ numDigitsAux f (m / 10) * 10 := Nat.mul_le_mul_right _ (by omega)
        _ = 10 ^ (numDigitsAux f (m / 10) + 1) := (pow_succ 10 _).symm

theorem lt_pow_numDigits (m : Nat) : m < 10 ^ numDigits m :=
  numDigitsAux_lt (m + 1) m (Nat.lt_succ_self m)

theorem combineNat_lt_of_digits_lt (a m m1 : Nat) (ha : 1 ≤ a)
    (hd : numDigits m < numDigits m1) : combineNat a m < combineNat a m1 := by
  have h1 : m < 10 ^ numDigits m := lt_pow_numDigits m
  have h2 : combineNat a m < (a + 1) * 10 ^ numDigits m := by
    unfold combineNat
    have := Nat.add_lt_add_left h1 (a * 10 ^ numDigits m)
    calc a * 10 ^ numDigits m + m
        < a * 10 ^ numDigits m + 10 ^ numDigits m := this
      _ = (a + 1) * 10 ^ numDigits m := by ring
  have h3 : (a + 1) * 10 ^ numDigits m ≤ 10 * a * 10 ^ numDigits m :=
    Nat.mul_le_mul_right _ (by omega)
  have h4 : 10 * a * 10 ^ numDigits m = a * 10 ^ (numDigits m + 1) := by ring
  have h5 : 10 ^ (numDigits m + 1) ≤ 10 ^ numDigits m1 :=
    Nat.pow_le_pow_right (by omega) hd
  have h6 : a * 10 ^ (numDigits m + 1) ≤ a * 10 ^ numDigits m1 :=
    Nat.mul_le_mul_left a h5
  have h7 : a * 10 ^ numDigits m1 ≤ combineNat a m1 := Nat.le_add_right _ _
  exact lt_of_lt_of_le h2 (le_trans h3 (le_trans (le_of_eq h4) (le_trans h6 h7)))

theorem combineNat_inj (a m m1 : Nat) (h : combineNat a m = combineNat a m1) : m = m1 := by
  rcases Nat.eq_zero_or_pos a with ha | ha
  · subst ha
    simpa [combineNat] using h
  · rcases Nat.lt_trichotomy (numDigits m) (numDigits m1) with hd | hd | hd
    · exact absurd h (Nat.ne_of_lt (combineNat_lt_of_digits_lt a m m1 ha hd))
    · unfold combineNat at h
      rw [hd] at h
      exact Nat.add_left_cancel h
    · exact absurd h.symm (Nat.ne_of_lt (combineNat_lt_of_digits_lt a m1 m ha hd))

theorem combineToken_inj_right (c : Int) (m m1 : Nat)
    (h : combineToken c m = combineToken c m1) : m = m1 := by
  unfold combineToken at h
  by_cases hc : 0 ≤ c
  · simp only [hc, if_true] at h
    exact combineNat_inj _ _ _ (by exact_mod_cast h)
  · simp only [hc, if_false, neg_inj] at h
    exact combineNat_inj _ _ _ (by exact_mod_cast h)

theorem ttlSetItem_maxsize (c : TTLModel) (now : Nat) (key : Int) (v : AdminCache) :
    (ttlSetItem c now key v).maxsize = c.maxsize := by
  simp only [ttlSetItem]
  split <;> rfl

theorem ttlSetItem_ttl (c : TTLModel) (now : Nat) (key : Int) (v : AdminCache) :
    (ttlSetItem c now key v).ttl = c.ttl := by
  simp only [ttlSetItem]
  split <;> rfl

theorem ttlSetItem_spec (c : TTLModel) (now : Nat) (key : Int) (v : AdminCache) :
    ∃ pre : List TTLEntry,
      (ttlSetItem c now key v).entries
        = pre ++ [{ key := key, val := v, expires := now + c.ttl }] ∧
      ∀ e ∈ pre, (e.key == key) = false := by
  by_cases h : (c.entries.filter (fun e => now < e.expires)).any (fun e => e.key == key)
  · refine ⟨(c.entries.filter (fun e => now < e.expires)).filter (fun e => ¬ e.key == key),
      ?_, ?_⟩
    · simp [ttlSetItem, h]
    · intro e he
      have := (List.mem_filter.mp he).2
      simpa using this
  · refine ⟨(c.entries.filter (fun e => now < e.expires)).drop
      ((c.entries.filter (fun e => now < e.expires)).length + 1 - c.maxsize), ?_, ?_⟩
    · simp [ttlSetItem, h]
    · intro e he
      have hmem : e ∈ c.entries.filter (fun e => now < e.expires) :=
        List.mem_of_mem_drop he
      have := List.any_eq_false.mp (Bool.eq_false_iff.mpr h) e hmem
      simpa using this

theorem ttlFind_setItem (c : TTLModel) (now : Nat) (key : Int) (v : AdminCache) :
    ttlFind (ttlSetItem c now key v) key
      = some { key := key, val := v, expires := now + c.ttl } := by
  obtain ⟨pre, heq, hpre⟩ := ttlSetItem_spec c now key v
  unfold ttlFind
  rw [heq, List.find?_append]
  have h1 : pre.find? (fun e => e.key == key) = none :=
    List.find?_eq_none.mpr (by intro x hx; simp [hpre x hx])
  rw [h1]
  simp

theorem ttlSetItem_append (c : TTLModel) (now : Nat) (key : Int) (v : AdminCache)
    (hlive : ∀ e ∈ c.entries, now < e.expires)
    (hfresh : ∀ e ∈ c.entries, e.key ≠ key)
    (hroom : c.entries.length + 1 ≤ c.maxsize) :
    (ttlSetItem c now key v).entries
      = c.entries ++ [{ key := key, val := v, expires := now + c.ttl }] := by
  have hswept : c.entries.filter (fun e => now < e.expires) = c.entries :=
    List.filter_eq_self.mpr (by intro a ha; simpa using hlive a ha)
  have hany : c.entries.any (fun e => e.key == key) = false := by
    simp only [List.any_eq_false]
    intro e he
    simpa using hfresh e he
  have hzero : c.entries.length + 1 - c.maxsize = 0 := by omega
  simp [ttlSetItem, hswept, hany, hzero]

theorem insertKeys_length : ∀ (ks : List Int) (c : TTLModel),
    (∀ e ∈ c.entries, 0 < e.expires) → 0 < c.ttl →
    (∀ k ∈ ks, ∀ e ∈ c.entries, e.key ≠ k) → ks.Nodup →
    c.entries.length + ks.length ≤ c.maxsize →
    (insertKeys c ks).entries.length = c.entries.length + ks.length := by
  intro ks
  induction ks with
  | nil =>
    intro c _ _ _ _ _
    simp [insertKeys]
  | cons k ks ih =>
    intro c hlive httl hfresh hnodup hroom
    have hcons := List.nodup_cons.mp hnodup
    have happ := ttlSetItem_append c 0 k
      { chat_id := k, user_info := [], cached := true }
      hlive (fun e he => hfresh k (List.mem_cons_self k ks) e he)
      (by simp at hroom; omega)
    have hmax := ttlSetItem_maxsize c 0 k
      { chat_id := k, user_info := [], cached := true }
    have httl2 := ttlSetItem_ttl c 0 k
      { chat_id := k, user_info := [], cached := true }
    have hstep := ih (ttlSetItem c 0 k { chat_id := k, user_info := [], cached := true })
      (by
        rw [happ]
        intro e he
        rcases List.mem_append.mp he with h1 | h1
        · exact hlive e h1
        · simp at h1
          rw [h1]
          exact httl)
      (by rw [httl2]; exact httl)
      (by
        rw [happ]
        intro k1 hk1 e he
        rcases List.mem_append.mp he with h1 | h1
        · exact hfresh k1 (List.mem_cons_of_mem k hk1) e h1
        · simp at h1
          rw [h1]
          intro hcontra
          have hk : k = k1 := hcontra
          exact hcons.1 (by rw [hk]; exact hk1))
      hcons.2
      (by
        rw [happ, hmax]
        simp at hroom ⊢
        omega)
    rw [insertKeys, hstep, happ]
    simp
    omega

theorem keys513_nodup : keys513.Nodup := by
  unfold keys513
  exact List.Nodup.map (fun a b h => Int.ofNat.inj h) (List.nodup_range 513)

theorem load_admin_cache_miss_ok (c : TTLModel) (t0 : Nat) (l : List ChatMemberRec)
    (chat : Int) (hmiss : (ttlGet c t0 chat).1 = none) :
    load_admin_cache c t0 (.ok l) chat false
      = (.returns (true, { chat_id := chat, user_info := l, cached := true }),
         ttlSetItem c t0 chat { chat_id := chat, user_info := l, cached := true }, 1) := by
  rcases hg : ttlGet c t0 chat with ⟨o, cc⟩
  rw [hg] at hmiss
  simp at hmiss
  subst hmiss
  simp [load_admin_cache, hg]

theorem load_admin_cache_hit (c : TTLModel) (t : Nat) (f : FetchOutcome) (chat : Int)
    (v : AdminCache) (c2 : TTLModel) (hget : ttlGet c t chat = (some v, c2)) :
    load_admin_cache c t f chat false = (.returns (true, v), c2, 0) := by
  simp [load_admin_cache, hget]

theorem load_admin_cache_miss_calls (c : TTLModel) (t : Nat) (f : FetchOutcome) (chat : Int)
    (hmiss : (ttlGet c t chat).1 = none) :
    (load_admin_cache c t f chat false).2.2 = 1 := by
  rcases hg : ttlGet c t chat with ⟨o, cc⟩
  rw [hg] at hmiss
  simp at hmiss
  subst hmiss
  cases f <;> simp [load_admin_cache, hg]

theorem ttlGet_setItem_hit (c : TTLModel) (t0 t : Nat) (chat : Int) (v : AdminCache)
    (hlt : t < t0 + c.ttl) :
    ttlGet (ttlSetItem c t0 chat v) t chat
      = (some v, ttlTouch (ttlSetItem c t0 chat v) chat) := by
  unfold ttlGet
  rw [ttlFind_setItem]
  simp [hlt]

theorem ttlGet_setItem_expired (c : TTLModel) (t0 t : Nat) (chat : Int) (v : AdminCache)
    (hge : t0 + c.ttl ≤ t) :
    (ttlGet (ttlSetItem c t0 chat v) t chat).1 = none := by
  unfold ttlGet
  rw [ttlFind_setItem]
  simp only []
  rw [if_neg (by omega)]

theorem get_admin_cache_user_calls (c : TTLModel) (now : Nat) (chat user : Int) :
    (get_admin_cache_user c now chat user).2.2 = 0 := by
  unfold get_admin_cache_user
  rcases hg : ttlGet c now chat with ⟨o, cc⟩
  cases o with
  | none => simp
  | some al => cases hf : al.user_info.find? (fun ui => ui.userId == user) <;> simp [hf]

theorem get_admin_cache_user_miss (c : TTLModel) (now : Nat) (chat user : Int)
    (hmiss : (ttlGet c now chat).1 = none) :
    (get_admin_cache_user c now chat user).1 = (false, none) := by
  unfold get_admin_cache_user
  rcases hg : ttlGet c now chat with ⟨o, cc⟩
  rw [hg] at hmiss
  simp at hmiss
  subst hmiss
  simp

/-! ### Claim C5 -/

/-- C5, counterexample: with the fetch failing with a generic (non
not-found/forbidden) transport error, `load_admin_cache` returns
`(False, AdminCache(chat_id, [], cached=False))` normally and leaves the cache
untouched — no `TransportError` (or any exception) propagates to the caller,
contrary to the claim. -/
theorem C5_counterexample :
    load_admin_cache admin_cache 0 (.exc .transportError) 1 false
      = (.returns (false, { chat_id := 1, user_info := [], cached := false }),
         admin_cache, 1) ∧
    (load_admin_cache admin_cache 0 (.exc .transportError) 1 false).1
      ≠ PyResult.raises PyErr.transportError := by
  constructor
  · rfl
  · decide

/-- C5 (amended): on a cache miss or a forced reload, every external fetch
failure — not-found/forbidden and any other error alike — is swallowed by the
`except Exception` handler: the call returns
`(False, AdminCache(chat_id, [], cached=False))` normally, caches nothing
(the cache state is unchanged), performs exactly one external call, and never
propagates any exception. -/
theorem C5_failure_swallowed (c : TTLModel) (now : Nat) (chat : Int) (k : PyErr)
    (force : Bool) (hmiss : force = false → (ttlGet c now chat).1 = none) :
    load_admin_cache c now (.exc k) chat force
      = (.returns (false, { chat_id := chat, user_info := [], cached := false }),
         c, 1) := by
  cases force with
  | true => simp [load_admin_cache]
  | false =>
    have h := hmiss rfl
    rcases hg : ttlGet c now chat with ⟨o, cc⟩
    rw [hg] at h
    simp at h
    subst h
    simp [load_admin_cache, hg]

/-- C5 witness: the amended theorem applied at a concrete input (empty cache,
forbidden-type failure). -/
theorem C5_failure_swallowed_witness :
    load_admin_cache admin_cache 3 (.exc .forbidden) 7 false
      = (.returns (false, { chat_id := 7, user_info := [], cached := false }),
         admin_cache, 1) :=
  C5_failure_swallowed admin_cache 3 7 .forbidden false (fun _ => by decide)

/-! ### Claim C6 -/

/-- C6, counterexample: the member cache's TTL is 15 minutes (900 s), not the
claimed 20 minutes (1200 s): an entry stored at t0 = 0 is no longer served at
t = 1000 ∈ [0, 1200) — the read at t = 1000 performs one external fetch
instead of the claimed zero. -/
theorem C6_counterexample :
    admin_cache.ttl = 900 ∧ (1000 : Nat) < 1200 ∧
    (load_admin_cache (load_admin_cache admin_cache 0 (.ok []) 1 false).2.1
        1000 (.ok []) 1 false).2.2 = 1 := by
  refine ⟨rfl, by omega, ?_⟩
  decide

/-- C6 (amended, TTL = 15 minutes): after a miss at t0 causes a fetch and a
store, a read with `force_reload=false` at any t < t0 + ttl is served from the
cache — it returns the stored record and performs no external call — and a
read at any t ≥ t0 + ttl misses and performs a fresh external fetch; the
`admin_cache` TTL is 15 * 60 seconds. -/
theorem C6_ttl_window :
    admin_cache.ttl = 15 * 60 ∧
    ∀ (c : TTLModel) (t0 t : Nat) (l : List ChatMemberRec) (chat : Int)
      (f2 : FetchOutcome),
      (ttlGet c t0 chat).1 = none →
      (t < t0 + c.ttl →
        load_admin_cache (load_admin_cache c t0 (.ok l) chat false).2.1 t f2 chat false
          = (.returns (true, { chat_id := chat, user_info := l, cached := true }),
             ttlTouch (load_admin_cache c t0 (.ok l) chat false).2.1 chat, 0)) ∧
      (t0 + c.ttl ≤ t →
        (load_admin_cache (load_admin_cache c t0 (.ok l) chat false).2.1
            t f2 chat false).2.2 = 1) := by
  refine ⟨rfl, ?_⟩
  intro c t0 t l chat f2 hmiss
  have h1 := load_admin_cache_miss_ok c t0 l chat hmiss
  constructor
  · intro hlt
    rw [h1]
    exact load_admin_cache_hit _ t f2 chat _ _ (ttlGet_setItem_hit c t0 t chat _ hlt)
  · intro hge
    rw [h1]
    exact load_admin_cache_miss_calls _ t f2 chat (ttlGet_setItem_expired c t0 t chat _ hge)

/-- C6 witness: store at t0 = 0 into the empty cache, read at t = 100 < 900 —
served from cache, zero external calls. -/
theorem C6_ttl_window_witness :
    load_admin_cache (load_admin_cache admin_cache 0 (.ok []) 1 false).2.1
        100 (.ok []) 1 false
      = (.returns (true, { chat_id := 1, user_info := [], cached := true }),
         ttlTouch (load_admin_cache admin_cache 0 (.ok []) 1 false).2.1 1, 0) :=
  (C6_ttl_window.2 admin_cache 0 100 [] 1 (.ok []) (by decide)).1 (by decide)

/-! ### Claim C7 -/

/-- C7, counterexample: the member cache is bounded at 1000 entries, not 512:
storing 513 distinct chat keys into the fresh `admin_cache` (all unexpired,
stored at instant 0 with ttl 900) leaves 513 live entries and evicts
nothing, so the cache does not hold at most 512 live entries. -/
theorem C7_counterexample :
    (insertKeys admin_cache keys513).entries.length = 513 ∧ ¬ (513 ≤ 512) := by
  constructor
  · have hlen : keys513.length = 513 := by
      rw [keys513, List.length_map, List.length_range]
    have h := insertKeys_length keys513 admin_cache
      (by intro e he; simp [admin_cache] at he)
      (by norm_num [admin_cache])
      (by intro k hk e he; simp [admin_cache] at he)
      keys513_nodup
      (by rw [hlen]; norm_num [admin_cache])
    rw [h, hlen]
    norm_num [admin_cache]
  · decide

/-- C7 (amended, capacity 1000): `admin_cache` is bounded at 1000 entries, and
inserting a fresh distinct key into a full cache of unexpired entries evicts
exactly one existing unexpired entry — the least-recently-used one (the head
of the LRU order) — before the insert. -/
theorem C7_capacity_lru_eviction :
    admin_cache.maxsize = 1000 ∧
    ∀ (c : TTLModel) (now : Nat) (key : Int) (v : AdminCache),
      1 ≤ c.maxsize →
      c.entries.length = c.maxsize →
      (∀ e ∈ c.entries, now < e.expires) →
      (∀ e ∈ c.entries, e.key ≠ key) →
      (ttlSetItem c now key v).entries
        = c.entries.tail ++ [{ key := key, val := v, expires := now + c.ttl }] := by
  refine ⟨rfl, ?_⟩
  intro c now key v hmax hlen hlive hfresh
  have hswept : c.entries.filter (fun e => now < e.expires) = c.entries :=
    List.filter_eq_self.mpr (by intro a ha; simpa using hlive a ha)
  have hany : c.entries.any (fun e => e.key == key) = false := by
    simp only [List.any_eq_false]
    intro e he
    simpa using hfresh e he
  have hone : c.entries.length + 1 - c.maxsize = 1 := by omega
  simp [ttlSetItem, hswept, hany, hone, List.drop_one]

/-- C7 witness: the eviction property applied to a concrete full cache of
capacity 1: inserting key 7 evicts the single (least recently used) entry
with key 5. -/
theorem C7_capacity_lru_eviction_witness :
    (ttlSetItem
        { maxsize := 1, ttl := 900,
          entries := [{ key := 5,
                        val := { chat_id := 5, user_info := [], cached := true },
                        expires := 10 }] }
        0 7 { chat_id := 7, user_info := [], cached := true }).entries
      = [({ key := 5, val := { chat_id := 5, user_info := [], cached := true },
            expires := 10 } : TTLEntry)].tail
        ++ [{ key := 7, val := { chat_id := 7, user_info := [], cached := true },
              expires := 0 + 900 }] :=
  C7_capacity_lru_eviction.2
    { maxsize := 1, ttl := 900,
      entries := [{ key := 5, val := { chat_id := 5, user_info := [], cached := true },
                    expires := 10 }] }
    0 7 { chat_id := 7, user_info := [], cached := true }
    (by decide) (by decide) (by decide) (by decide)

/-! ### Claim C8 -/

/-- C8, counterexample: decimal-digit concatenation is not collision-free
across chats: the distinct pairs (chat_id, message_id) = (1, 23) and (12, 3)
produce the same token 123. -/
theorem C8_counterexample :
    combineToken 1 23 = combineToken 12 3 ∧
    ¬ ((1 : Int) = 12 ∧ (23 : Nat) = 3) := by
  constructor
  · decide
  · decide

/-- C8 (amended): within a fixed chat the token is collision-free — for one
`chat_id`, distinct `message_id`s always yield distinct tokens (the claimed
cross-chat injectivity fails, see the counterexample). -/
theorem C8_token_injective_within_chat :
    ∀ (c : Int) (m m1 : Nat), combineToken c m = combineToken c m1 → m = m1 :=
  combineToken_inj_right

/-- C8 witness: the within-chat injectivity applied at a concrete token
equality. -/
theorem C8_token_injective_within_chat_witness : (7 : Nat) = 7 :=
  C8_token_injective_within_chat 5 7 7 rfl

/-! ### Claim C9 -/

/-- C9, counterexample: a Restricted membership record (status neither
Administrator nor Owner) whose `can_pin_messages` attribute is truthy
satisfies the permission check for the non-empty spec [can_pin_messages]: the
missing list is empty rather than the whole spec, so no failure is
reported. -/
theorem C9_counterexample :
    check_permissions (.restricted [.can_pin_messages]) (.listPerm [.can_pin_messages]) = []
      ∧ isAdminRec (.restricted [.can_pin_messages]) = false
      ∧ isOwnerRec (.restricted [.can_pin_messages]) = false
      ∧ ([] : List Perm) ≠ [Perm.can_pin_messages] := by
  refine ⟨rfl, rfl, rfl, by decide⟩

/-- C9 (amended): for every membership record whose status carries no
privilege attributes at all — Member, Left or Banned — the permission check
reports every requested flag as missing, in the spec's iteration order
(`check_permissions` returns the requested list itself); a Restricted record
can instead satisfy flags it holds (see the counterexample). -/
theorem C9_no_privilege_all_missing (k : MemberKind) (pi : PermInput)
    (hk : k = .member ∨ k = .left ∨ k = .banned) :
    check_permissions k pi = permsToList pi := by
  rcases hk with h | h | h <;> subst h <;>
    cases pi <;> simp [check_permissions, permsToList, getattrPerm]

/-- C9 witness: a plain Member asked for two permissions misses both, in
order. -/
theorem C9_no_privilege_all_missing_witness :
    check_permissions .member (.listPerm [.can_pin_messages, .can_change_info])
      = permsToList (.listPerm [.can_pin_messages, .can_change_info]) :=
  C9_no_privilege_all_missing .member
    (.listPerm [.can_pin_messages, .can_change_info]) (Or.inl rfl)

/-! ### Claim C10 -/

/-- C10: the cached membership predicates fail closed without fetching: when
the admin cache holds no live entry for the chat (cold or expired), both
`is_admin` and `is_owner` return False; and for every input whatsoever they
perform zero external API calls — their only data source is the cache. -/
theorem C10_fail_closed_no_fetch (c : TTLModel) (now : Nat) (chat user : Int) :
    ((ttlGet c now chat).1 = none →
      (is_admin c now chat user).1 = false ∧ (is_owner c now chat user).1 = false) ∧
    (is_admin c now chat user).2.2 = 0 ∧ (is_owner c now chat user).2.2 = 0 := by
  refine ⟨?_, ?_, ?_⟩
  · intro hmiss
    have h := get_admin_cache_user_miss c now chat user hmiss
    constructor
    · unfold is_admin
      rcases hg : get_admin_cache_user c now chat user with ⟨p, cc, n⟩
      rw [hg] at h
      simp at h
      rcases p with ⟨b, o⟩
      simp at h
      rw [h.1, h.2]
    · unfold is_owner
      rcases hg : get_admin_cache_user c now chat user with ⟨p, cc, n⟩
      rw [hg] at h
      simp at h
      rcases p with ⟨b, o⟩
      simp at h
      rw [h.1, h.2]
  · unfold is_admin
    rcases hg : get_admin_cache_user c now chat user with ⟨⟨b, o⟩, cc, n⟩
    have := get_admin_cache_user_calls c now chat user
    rw [hg] at this
    simp at this
    subst this
    cases o <;> simp
  · unfold is_owner
    rcases hg : get_admin_cache_user c now chat user with ⟨⟨b, o⟩, cc, n⟩
    have := get_admin_cache_user_calls c now chat user
    rw [hg] at this
    simp at this
    subst this
    cases o <;> simp

/-- C10 witness: concrete cold cache. -/
theorem C10_fail_closed_no_fetch_witness :
    (is_admin admin_cache 0 1 2).1 = false ∧ (is_owner admin_cache 0 1 2).1 = false :=
  (C10_fail_closed_no_fetch admin_cache 0 1 2).1 (by decide)

/-! ### Dict helper lemmas for the challenge store -/

theorem dictInsert_any_key (d : BotData) (k : Int) (v : Pending) :
    (dictInsert d k v).any (fun kv => kv.1 == k) = true := by
  unfold dictInsert
  by_cases h : d.any (fun kv => kv.1 == k)
  · rw [if_pos h]
    rcases List.any_eq_true.mp h with ⟨kv, hmem, hk⟩
    apply List.any_eq_true.mpr
    refine ⟨(k, v), List.mem_map.mpr ⟨kv, hmem, by simp [hk]⟩, by simp⟩
  · rw [if_neg h]
    apply List.any_eq_true.mpr
    exact ⟨(k, v), List.mem_append_right _ (by simp), by simp⟩

theorem dictPop_isSome_of_any (d : BotData) (k : Int)
    (h : d.any (fun kv => kv.1 == k) = true) :
    (dictPop d k).isSome = true := by
  unfold dictPop
  rcases List.any_eq_true.mp h with ⟨kv, hmem, hk⟩
  have hsome : (d.find? (fun kv => kv.1 == k)).isSome :=
    List.find?_isSome.mpr ⟨kv, hmem, hk⟩
  rcases hf : d.find? (fun kv => kv.1 == k) with _ | kv2
  · rw [hf] at hsome
    simp at hsome
  · rw [hf]
    simp

/-! ### Claim C1 -/

/-- C1: single-use is only half implemented.  First conjunct: the first
resolution for a stored token removes the entry (the store is empty
afterwards) and runs the deferred action.  Second conjunct — the failing
input: a second resolution of the same token finds `bot_data` without the key
and `context.bot_data.pop(callback_id)` (admins.py line 31, no default) raises
`KeyError` instead of reaching the `if not message` branch that would answer
with the failure notice. -/
theorem C1_second_resolution_raises :
    verify_anonymous_admin [(combineToken 5 7, ⟨true, 7, 42, .nonePerm⟩)] 5 7
        (fun _ => some (.administrator [])) 11 22
      = (.ranAction 42, []) ∧
    verify_anonymous_admin [] 5 7 (fun _ => some (.administrator [])) 11 22
      = (.keyError, []) := by
  constructor
  · decide
  · decide

/-! ### Claim C2 -/

/-- C2, counterexample: a challenge stored at instant 0 is still resolved, with
its entry returned, at instant 1000000000 — far beyond any bounded TTL (in
particular beyond the recommended 40 seconds) — instead of behaving like an
unknown token (`none`): `context.bot_data` is a plain dict with no expiry. -/
theorem C2_counterexample :
    resolveChallengeAt 1000000000 (storeChallengeAt 0 [] 57 ⟨true, 7, 42, .nonePerm⟩) 57
      = some (⟨true, 7, 42, .nonePerm⟩, []) ∧
    (40 : Nat) ≤ 1000000000 - 0 := by
  constructor
  · rfl
  · decide

/-- C2 (amended): pending challenges never expire.  Resolution is completely
time-independent (the store consults no clock), and an entry stored at any
instant is still found by a resolution at every later instant, until it is
consumed by a pop. -/
theorem C2_challenges_never_expire :
    (∀ (t1 t2 : Nat) (d : BotData) (k : Int),
        resolveChallengeAt t1 d k = resolveChallengeAt t2 d k) ∧
    ∀ (t0 t : Nat) (d : BotData) (k : Int) (e : Pending),
      (resolveChallengeAt t (storeChallengeAt t0 d k e) k).isSome = true := by
  constructor
  · intro t1 t2 d k
    rfl
  · intro t0 t d k e
    exact dictPop_isSome_of_any _ _ (dictInsert_any_key d k e)

/-! ### Claim C3 -/

/-- C3, counterexample: with `no_reply=True` the anonymous-admin branch
(admins.py line 160 requires `not no_reply`) is skipped: for an
anonymous-admin sender in a group the guard performs membership lookups (for
the bot id 99 and the sentinel user id), issues no challenge, stores nothing,
and here even runs the action — contradicting the claim for this
invocation. -/
theorem C3_counterexample :
    wrapped
        { permissions := .nonePerm, is_bot := false, is_user := false,
          is_both := false, only_owner := false, only_dev := false,
          no_reply := true, allow_pm := true }
        { chatType := .supergroup, chatId := 5, messageId := 7,
          userId := 1087968824, msgSenderId := 1087968824, botId := 99,
          devs := [], fetchMember := fun _ => some .member }
        42 []
      = (.ranFunc, [], [99, 1087968824]) := by
  decide

/-- C3 (amended): provided `no_reply` is false, every invocation in a
non-private chat that passes the developer check and whose message sender is
the anonymous-admin sentinel stores a pending challenge under the token
combining (chat_id, message_id), replies with the "Verify Admin" control
carrying the message id of the token, performs no membership lookup, and
returns without invoking the wrapped action. -/
theorem C3_anonymous_challenge (pol : Policy) (inp : GuardInput) (actionId : Nat)
    (d : BotData)
    (h1 : ¬ (inp.chatType = .private_chat ∧ pol.only_dev = false))
    (h2 : pol.only_dev = true → inp.userId ∈ inp.devs)
    (h3 : inp.msgSenderId = anonymousAdminId)
    (h4 : pol.no_reply = false) :
    wrapped pol inp actionId d
      = (.challengeIssued (combineToken inp.chatId inp.messageId) inp.messageId,
         dictInsert d (combineToken inp.chatId inp.messageId)
           { msgTruthy := true, msgId := inp.messageId, actionId := actionId,
             perms := pol.permissions },
         []) := by
  unfold wrapped
  rw [if_neg h1, if_neg (by rintro ⟨hd, hn⟩; exact hn (h2 hd)), if_pos ⟨h3, h4⟩]

/-- C3 witness: the amended theorem at a concrete anonymous-admin update in a
supergroup. -/
theorem C3_anonymous_challenge_witness :
    wrapped
        { permissions := .nonePerm, is_bot := false, is_user := false,
          is_both := false, only_owner := false, only_dev := false,
          no_reply := false, allow_pm := true }
        { chatType := .supergroup, chatId := 5, messageId := 7,
          userId := 1087968824, msgSenderId := 1087968824, botId := 99,
          devs := [], fetchMember := fun _ => some .member }
        42 []
      = (.challengeIssued (combineToken 5 7) 7,
         dictInsert [] (combineToken 5 7)
           { msgTruthy := true, msgId := 7, actionId := 42, perms := .nonePerm },
         []) :=
  C3_anonymous_challenge _ _ 42 []
    (by rintro ⟨hc, _⟩; cases hc) (by intro hc; cases hc) rfl rfl

/-! ### Claim C4 -/

/-- C4: in the permission-checking tail of the guard, Owner status exempts
only the user-side missing-permission failure; the bot-side check is never
exempted.  First conjunct: with `is_bot` set, a bot record missing any
required flag always fails with the bot-side notice listing exactly those
flags, regardless of any owner status.  Second conjunct: the same on the
`is_both` path (with the admin pre-checks passing).  Third conjunct: when the
user record is Owner, the user-side missing-permission notice is never the
outcome. -/
theorem C4_owner_exemption_user_side_only (botK userK : MemberKind) (pol : Policy) :
    (pol.is_bot = true → check_permissions botK pol.permissions ≠ [] →
      wrappedPermTail botK userK pol
        = .sentBotMissingPerms (check_permissions botK pol.permissions)) ∧
    (pol.is_both = true → pol.is_bot = false → pol.is_user = false →
      isAdminRec botK = true → isAdminRec userK = true →
      check_permissions botK pol.permissions ≠ [] →
      wrappedPermTail botK userK pol
        = .sentBotMissingPerms (check_permissions botK pol.permissions)) ∧
    (isOwnerRec userK = true →
      ∀ ps : List Perm, wrappedPermTail botK userK pol ≠ .sentUserMissingPerms ps) := by
  refine ⟨?_, ?_, ?_⟩
  · intro hbot hne
    simp [wrappedPermTail, hbot, hne]
  · intro hboth hbotF huserF hadmB hadmU hne
    simp [wrappedPermTail, hboth, hbotF, huserF, hadmB, hadmU, hne]
  · intro howner ps
    unfold wrappedPermTail
    simp only [howner]
    split_ifs <;> simp_all

/-- C4 witness: an admin bot missing `can_pin_messages` fails bot-side even
though the user is the chat owner. -/
theorem C4_owner_exemption_user_side_only_witness :
    wrappedPermTail (.administrator []) .owner
        { permissions := .listPerm [.can_pin_messages], is_bot := true,
          is_user := true, is_both := false, only_owner := false,
          only_dev := false, no_reply := false, allow_pm := true }
      = .sentBotMissingPerms
          (check_permissions (.administrator [])
            (.listPerm [.can_pin_messages])) :=
  (C4_owner_exemption_user_side_only (.administrator []) .owner
      { permissions := .listPerm [.can_pin_messages], is_bot := true,
        is_user := true, is_both := false, only_owner := false,
        only_dev := false, no_reply := false, allow_pm := true }).1
    rfl (by decide)

end PtbMod
